import Mathlib

/-!
Verification of the NeuralFinance transaction ledger, reporting and export
logic (`src/app_groq.py`).  The Python functions are shallowly embedded as
Lean definitions: pandas DataFrames become `List Tx`, SQLite rows become
`(id, Tx)` pairs, `float` amounts become `ℚ`, byte payloads become a
structured `ExportPayload`, and `try/except` around store reads becomes a
match on `Except`.  Python string formatting (`:,.2f`, `.round(2)`, `:.1f`)
is presentation only and is not modelled; the values being formatted are.
-/

/-! ### String helpers

`subSearch` models Python's substring operator `needle in hay`;
`lowerStr` models `str.lower` on the ASCII range (all keywords the code
compares against are already lower-case in the source). -/

def isPref : List Char → List Char → Bool
  | [], _ => true
  | _ :: _, [] => false
  | a :: as, b :: bs => a == b && isPref as bs

def subSearch (needle : List Char) : List Char → Bool
  | [] => isPref needle []
  | c :: rest => isPref needle (c :: rest) || subSearch needle rest

def strContains (hay needle : String) : Bool :=
  subSearch needle.data hay.data

def lowerChar (c : Char) : Char :=
  if 'A' ≤ c ∧ c ≤ 'Z' then Char.ofNat (c.toNat + 32) else c

def lowerStr (s : String) : String :=
  String.mk (s.data.map lowerChar)

/-! ### Data model

`Tx` is one row of the in-memory DataFrame with columns
`['Data', 'Categoria', 'Tipo', 'Valor', 'Descrição']` (the projection that
`load_transactions_from_db` SELECTs, without the surrogate `id`). -/

structure Tx where
  data : String
  categoria : String
  tipo : String
  valor : ℚ
  descricao : String
deriving DecidableEq

/-- A request to `save_transaction_to_db`: the arguments
`(categoria, tipo, valor, descricao, data)` of one append call
(with the `data` timestamp explicit, as `add_transaction` always passes it). -/
structure Req where
  categoria : String
  tipo : String
  valor : ℚ
  descricao : String
  data : String
deriving DecidableEq

/-- The row built by `save_transaction_to_db` from its arguments:
`descricao if descricao else "Sem descrição"` defaults an empty description
(app_groq.py line 89). -/
def mkTx (r : Req) : Tx :=
  { data := r.data, categoria := r.categoria, tipo := r.tipo, valor := r.valor,
    descricao := if r.descricao = "" then "Sem descrição" else r.descricao }

/-- The SQLite `transacoes` table: `AUTOINCREMENT` surrogate ids starting at 1
plus the stored rows in insertion order. -/
structure DB where
  nextId : Nat
  rows : List (Nat × Tx)

def initDB : DB := { nextId := 1, rows := [] }

/-- `save_transaction_to_db` (app_groq.py lines 78-94), successful path:
INSERT appends one row and assigns the next autoincrement id. -/
def saveTransactionToDb (db : DB) (r : Req) : DB :=
  { nextId := db.nextId + 1, rows := db.rows ++ [(db.nextId, mkTx r)] }

/-- A sequence of successful `save_transaction_to_db` calls, left to right. -/
def applyAll (reqs : List Req) (db : DB) : DB :=
  reqs.foldl saveTransactionToDb db

/-- `ORDER BY data DESC`: SQLite compares the TEXT column `data` bytewise,
which on UTF-8 agrees with Lean's lexicographic `String` order. -/
def leDesc (a b : Tx) : Prop := b.data ≤ a.data

instance : DecidableRel leDesc :=
  fun a b => inferInstanceAs (Decidable (b.data ≤ a.data))

instance : IsTotal Tx leDesc := ⟨fun a b => le_total b.data a.data⟩

instance : IsTrans Tx leDesc := ⟨fun _ _ _ hab hbc => le_trans hbc hab⟩

def sortByDataDesc (l : List Tx) : List Tx := List.insertionSort leDesc l

/-- `load_transactions_from_db` (app_groq.py lines 63-76): the `try` body
runs the SELECT with `ORDER BY data DESC`; the `except` branch returns an
empty DataFrame with the standard five columns (here: the empty list). -/
def loadTransactionsFromDb (res : Except String (List Tx)) : List Tx :=
  match res with
  | .ok rows => sortByDataDesc rows
  | .error _ => []

/-- `load_transactions_from_db` reading an intact store `db`. -/
def loadAll (db : DB) : List Tx :=
  loadTransactionsFromDb (.ok (db.rows.map Prod.snd))

/-- `get_transaction_stats` (app_groq.py lines 108-124):
`SELECT tipo, COUNT(*), SUM(valor), AVG(valor) FROM transacoes GROUP BY tipo`;
the `except` branch returns `[]`. -/
def getTransactionStats (res : Except String (List Tx)) :
    List (String × Nat × ℚ × ℚ) :=
  match res with
  | .error _ => []
  | .ok rows =>
    ((rows.map Tx.tipo).dedup).map (fun tp =>
      let vs := (rows.filter (fun t => t.tipo == tp)).map Tx.valor
      (tp, vs.length, vs.sum, vs.sum / (vs.length : ℚ)))

/-- `add_transaction` (app_groq.py lines 333-347): `saveOk` is the Boolean
returned by `save_transaction_to_db`; only on success is the new row
concatenated onto the in-memory DataFrame. -/
def addTransaction (saveOk : Bool) (data : List Tx) (dataHora categoria tipo : String)
    (valor : ℚ) (descricao : String) : List Tx :=
  if saveOk then
    data ++ [{ data := dataHora, categoria := categoria, tipo := tipo, valor := valor,
               descricao := if descricao = "" then "Sem descrição" else descricao }]
  else data

/-! ### Reporting -/

/-- `df[df['Tipo'] == 'Entrada']['Valor'].sum()` (app_groq.py line 354). -/
def totalEntradas (df : List Tx) : ℚ :=
  ((df.filter (fun t => t.tipo == "Entrada")).map Tx.valor).sum

/-- `df[df['Tipo'] == 'Saída']['Valor'].sum()` (app_groq.py line 355). -/
def totalSaidas (df : List Tx) : ℚ :=
  ((df.filter (fun t => t.tipo == "Saída")).map Tx.valor).sum

/-- `saldo = entrada - saida` (app_groq.py line 356). -/
def saldo (df : List Tx) : ℚ := totalEntradas df - totalSaidas df

/-- `df[df['Tipo'] == 'Saída'].groupby('Categoria')['Valor'].sum()`
(app_groq.py line 359), as an association list keyed by category.
pandas iterates group keys in sorted order; the claims treat this as a
mapping, so key order is not modelled. -/
def gastosPorCategoria (df : List Tx) : List (String × ℚ) :=
  let gastos := df.filter (fun t => t.tipo == "Saída")
  ((gastos.map Tx.categoria).dedup).map (fun c =>
    (c, ((gastos.filter (fun t => t.categoria == c)).map Tx.valor).sum))

/-- `sort_values(ascending=False)` on the summed values. -/
def geSnd (a b : String × ℚ) : Prop := b.2 ≤ a.2

instance : DecidableRel geSnd :=
  fun a b => inferInstanceAs (Decidable (b.2 ≤ a.2))

/-- The structured content of the string `get_financial_summary` builds
(app_groq.py lines 361-373). -/
structure FinSummary where
  totalEntradas : ℚ
  totalSaidas : ℚ
  saldo : ℚ
  transactionCount : Nat
  topGastosCategorias : List (String × ℚ)

/-- `get_financial_summary` (app_groq.py lines 349-373): `none` models the
sentinel string "Nenhuma transação registrada ainda." returned for an empty
DataFrame; otherwise the reported numbers and the `.head(3)` of the
descending per-category expense ranking. -/
def getFinancialSummary (df : List Tx) : Option FinSummary :=
  if df.isEmpty then none
  else some
    { totalEntradas := totalEntradas df
      totalSaidas := totalSaidas df
      saldo := saldo df
      transactionCount := df.length
      topGastosCategorias := (List.insertionSort geSnd (gastosPorCategoria df)).take 3 }

/-! ### Export generator -/

/-- `(saldo/entrada_total*100) if entrada_total > 0 else 0`
(app_groq.py line 514, the `Indicadores` sheet; the `:.1f` display
formatting is not modelled). -/
def taxaDePoupanca (df : List Tx) : ℚ :=
  if totalEntradas df > 0 then saldo df / totalEntradas df * 100 else 0

/-- The same expression in the TXT fallback report (app_groq.py line 546). -/
def taxaDePoupancaTxt (df : List Tx) : ℚ :=
  if totalEntradas df > 0 then saldo df / totalEntradas df * 100 else 0

/-- `df.groupby(['Tipo', 'Categoria']).agg({'Valor': ['sum', 'mean', 'count']})`
(app_groq.py lines 486-490 and 555-556): for each (Tipo, Categoria) key the
triple (Total, Média, Quantidade).  `.round(2)` display rounding is not
modelled. -/
def resumoCategoria (df : List Tx) : List ((String × String) × ℚ × ℚ × Nat) :=
  ((df.map (fun t => (t.tipo, t.categoria))).dedup).map (fun k =>
    let vs := (df.filter (fun t => t.tipo == k.1 && t.categoria == k.2)).map Tx.valor
    (k, vs.sum, vs.sum / (vs.length : ℚ), vs.length))

/-- The rows surviving `pd.to_datetime(..., errors='coerce')` followed by
`dropna` (app_groq.py lines 494-495), tagged with their month string
(`dt.to_period('M').astype(str)`).  `parseMes` abstracts the pandas
timestamp parser: `none` models `NaT` (an unparsable timestamp). -/
def parsedRows (parseMes : String → Option String) (df : List Tx) :
    List (String × Tx) :=
  df.filterMap (fun t => (parseMes t.data).map (fun m => (m, t)))

/-- `df_copy.groupby(['Mês', 'Tipo']).agg({'Valor': 'sum'})`
(app_groq.py lines 497-500), as an association list keyed by (month, tipo). -/
def resumoMensal (parseMes : String → Option String) (df : List Tx) :
    List ((String × String) × ℚ) :=
  (((parsedRows parseMes df).map (fun p => (p.1, p.2.tipo))).dedup).map (fun k =>
    (k, (((parsedRows parseMes df).filter
            (fun p => p.1 == k.1 && p.2.tipo == k.2)).map
          (fun p => p.2.valor)).sum))

/-- `nlargest(min(20, len(saidas)), 'Valor')` over the expense rows
(app_groq.py line 522). -/
def geValor (a b : Tx) : Prop := b.valor ≤ a.valor

instance : DecidableRel geValor :=
  fun a b => inferInstanceAs (Decidable (b.valor ≤ a.valor))

def topGastosRows (df : List Tx) : List Tx :=
  let saidas := df.filter (fun t => t.tipo == "Saída")
  (List.insertionSort geValor saidas).take (min 20 saidas.length)

/-- One sheet of the xlsx workbook written by `pd.ExcelWriter`. -/
inductive Sheet
  | transacoes (rows : List Tx)
  | resumoCategorias (rows : List ((String × String) × ℚ × ℚ × Nat))
  | resumoMensal (rows : List ((String × String) × ℚ))
  | indicadores (totalEntradas totalSaidas saldo taxaDePoupanca : ℚ)
      (totalTransacoes : Nat)
  | topGastos (rows : List Tx)

/-- The TXT report built in the `except ImportError` fallback of
`create_budget_spreadsheet` (app_groq.py lines 528-568). -/
structure TxtReport where
  totalEntradas : ℚ
  totalSaidas : ℚ
  saldo : ℚ
  taxaDePoupanca : ℚ
  totalTransacoes : Nat
  resumoPorCategoria : List ((String × String) × ℚ × ℚ × Nat)
  transacoes : List Tx

/-- The byte payload an export function puts into the returned `BytesIO`. -/
inductive ExportPayload
  | raw (s : String)
  | csvRows (rows : List Tx)
  | workbook (sheets : List (String × Sheet))
  | txtReport (r : TxtReport)

/-- The sheets of the budget workbook (app_groq.py lines 479-523), in
order; the `Resumo Categorias`, `Resumo Mensal` and `Top 20 Gastos` sheets
are only written when their guarding `if len(...) > 0` test passes. -/
def budgetSheets (parseMes : String → Option String) (df : List Tx) :
    List (String × Sheet) :=
  ("Transações", Sheet.transacoes (sortByDataDesc df)) ::
  ((if df.length > 0 then
      [("Resumo Categorias", Sheet.resumoCategorias (resumoCategoria df))]
    else [])
   ++ (if (parsedRows parseMes df).length > 0 then
        [("Resumo Mensal", Sheet.resumoMensal (resumoMensal parseMes df))]
      else [])
   ++ [("Indicadores",
        Sheet.indicadores (totalEntradas df) (totalSaidas df) (saldo df)
          (taxaDePoupanca df) df.length)]
   ++ (if (df.filter (fun t => t.tipo == "Saída")).length > 0 then
        [("Top 20 Gastos", Sheet.topGastos (topGastosRows df))]
      else []))

/-- The `except ImportError` TXT report of `create_budget_spreadsheet`:
indicator block, per-category summary (guarded by `if len(df) > 0`), and
every transaction rendered sorted by `Data` descending. -/
def txtFallbackReport (df : List Tx) : TxtReport :=
  { totalEntradas := totalEntradas df
    totalSaidas := totalSaidas df
    saldo := saldo df
    taxaDePoupanca := taxaDePoupancaTxt df
    totalTransacoes := df.length
    resumoPorCategoria := if df.length > 0 then resumoCategoria df else []
    transacoes := sortByDataDesc df }

/-- `create_budget_spreadsheet` (app_groq.py lines 469-568).
`openpyxlAvailable` models whether `import openpyxl` succeeds inside
`pd.ExcelWriter` (the `ImportError` fallback trigger).  The empty-model
branch returns the literal bytes `b"Nenhuma transacao registrada ainda.\n"`
tagged `'csv'`. -/
def createBudgetSpreadsheet (openpyxlAvailable : Bool)
    (parseMes : String → Option String) (df : List Tx) : ExportPayload × String :=
  if df.isEmpty then
    (ExportPayload.raw "Nenhuma transacao registrada ainda.\n", "csv")
  else if openpyxlAvailable then
    (ExportPayload.workbook (budgetSheets parseMes df), "xlsx")
  else
    (ExportPayload.txtReport (txtFallbackReport df), "txt")

/-- `create_excel_export` (app_groq.py lines 432-467).  The empty-model
branch returns the header-only CSV bytes tagged `'csv'`; with openpyxl the
DataFrame is written to a single sheet `Transações`; otherwise
`df.to_csv(index=False)` is returned tagged `'csv'`. -/
def createExcelExport (openpyxlAvailable : Bool) (df : List Tx) :
    ExportPayload × String :=
  if df.isEmpty then
    (ExportPayload.raw "Data,Categoria,Tipo,Valor,Descricao\n", "csv")
  else if openpyxlAvailable then
    (ExportPayload.workbook [("Transações", Sheet.transacoes df)], "xlsx")
  else
    (ExportPayload.csvRows df, "csv")

/-- The transaction rows (full `Tx` records) present in a payload. -/
def sheetTxRows : Sheet → List Tx
  | Sheet.transacoes rows => rows
  | Sheet.topGastos rows => rows
  | _ => []

def payloadTxRows : ExportPayload → List Tx
  | ExportPayload.raw _ => []
  | ExportPayload.csvRows rows => rows
  | ExportPayload.workbook sheets => (sheets.map (fun p => sheetTxRows p.2)).flatten
  | ExportPayload.txtReport r => r.transacoes

/-- Whether a payload carries the application's "no data" label: every
no-data message in the source starts with "Nenhuma" ("Nenhuma transação
registrada ainda." / b"Nenhuma transacao registrada ainda.\n"). -/
def payloadNoDataLabeled : ExportPayload → Bool
  | ExportPayload.raw s => strContains s "Nenhuma"
  | _ => false

/-! ### Export-intent keyword detection -/

/-- The keyword list of `parse_ai_request_for_export`
(app_groq.py lines 572-575). -/
def exportKeywords : List String :=
  ["planilha", "excel", "exportar", "download", "baixar",
   "orçamento", "relatório", "análise detalhada", "spreadsheet"]

/-- `parse_ai_request_for_export` (app_groq.py lines 570-576):
`any(keyword in user_message.lower() for keyword in keywords)`. -/
def parseAiRequestForExport (userMessage : String) : Bool :=
  exportKeywords.any (fun kw => strContains (lowerStr userMessage) kw)

/-- Modelled from the spec: the fixed keyword set
spreadsheet, excel, export, download, budget, report, detailed analysis
that §4.4 of the spec claims the detector scans for (the code's own list is
`exportKeywords` above); used only to compare the spec's words with the
source. -/
def specExportKeywords : List String :=
  ["spreadsheet", "excel", "export", "download", "budget", "report",
   "detailed analysis"]

/-- Detection as the spec words it: the message contains at least one
keyword of `specExportKeywords`. -/
def specContainsExportKeyword (msg : String) : Bool :=
  specExportKeywords.any (fun kw => strContains (lowerStr msg) kw)

/-! ### Shared concrete inputs used by witnesses -/

/-- A concrete Entrada transaction of amount 100. -/
def txW1 : Tx :=
  { data := "2024-01-01 10:00:00", categoria := "Salário", tipo := "Entrada",
    valor := 100, descricao := "salário de janeiro" }

/-- A concrete Saída transaction of amount 40. -/
def txW2 : Tx :=
  { data := "2024-01-02 11:00:00", categoria := "Moradia", tipo := "Saída",
    valor := 40, descricao := "aluguel" }

/-! ### Theorems -/

/-- C6: `parse_ai_request_for_export` answers true for the user message
"pode gerar um orçamento?" (the lowered message contains the keyword
"orçamento") and false for "qual meu saldo?" (it contains none of the
keywords). -/
theorem c6_keyword_examples :
    parseAiRequestForExport "pode gerar um orçamento?" = true
    ∧ parseAiRequestForExport "qual meu saldo?" = false := by
  constructor <;> decide

/-- C10: when `save_transaction_to_db` reports failure (returns `False`),
`add_transaction` returns the in-memory DataFrame unchanged: no row is
appended to the memory copy on a failed store write. -/
theorem c10_failed_save_leaves_memory_unchanged (data : List Tx)
    (dataHora categoria tipo : String) (valor : ℚ) (descricao : String) :
    addTransaction false data dataHora categoria tipo valor descricao = data := rfl

/-- C3 counterexample: the claim says both export operations return a
clearly "no data"-labeled payload on an empty model, but
`create_excel_export([])` returns the bare header-only CSV
"Data,Categoria,Tipo,Valor,Descricao\n", which carries no "no data" label
(no occurrence of the application's "Nenhuma ..." message). -/
theorem c3_counterexample :
    (createExcelExport true []).1
        = ExportPayload.raw "Data,Categoria,Tipo,Valor,Descricao\n"
    ∧ payloadNoDataLabeled (createExcelExport true []).1 = false := by
  constructor
  · rfl
  · decide

/-- C3 amended: for an empty model neither export operation fails (both are
total and return): `create_budget_spreadsheet` returns the non-empty,
"no data"-labeled payload "Nenhuma transacao registrada ainda.\n" tagged
'csv', and `create_excel_export` returns the non-empty header-only CSV
payload tagged 'csv'; both tags lie in the set xlsx/csv/txt, but only the
budget payload carries the "no data" label. -/
theorem c3_empty_export_behavior (b : Bool) (parseMes : String → Option String) :
    createExcelExport b []
        = (ExportPayload.raw "Data,Categoria,Tipo,Valor,Descricao\n", "csv")
    ∧ createBudgetSpreadsheet b parseMes []
        = (ExportPayload.raw "Nenhuma transacao registrada ainda.\n", "csv")
    ∧ payloadNoDataLabeled (createBudgetSpreadsheet b parseMes []).1 = true
    ∧ "Data,Categoria,Tipo,Valor,Descricao\n" ≠ ""
    ∧ "Nenhuma transacao registrada ainda.\n" ≠ ""
    ∧ (createExcelExport b []).2 ∈ (["xlsx", "csv", "txt"] : List String)
    ∧ (createBudgetSpreadsheet b parseMes []).2 ∈ (["xlsx", "csv", "txt"] : List String) := by
  refine ⟨rfl, rfl, rfl, by decide, by decide, ?_, ?_⟩
  · rw [show (createExcelExport b []).2 = "csv" from rfl]
    decide
  · rw [show (createBudgetSpreadsheet b parseMes []).2 = "csv" from rfl]
    decide

/-- C5: in the budget export's indicator table, on both the spreadsheet
path and the TXT fallback, the savings rate equals
`saldo / totalEntradas * 100` whenever `totalEntradas > 0` (and then the
divisor is non-zero, so no division by zero occurs), and equals exactly 0
when `totalEntradas = 0`. -/
theorem c5_savings_rate (df : List Tx) :
    (totalEntradas df > 0 →
        taxaDePoupanca df = saldo df / totalEntradas df * 100
        ∧ taxaDePoupancaTxt df = saldo df / totalEntradas df * 100
        ∧ totalEntradas df ≠ 0)
    ∧ (totalEntradas df = 0 →
        taxaDePoupanca df = 0 ∧ taxaDePoupancaTxt df = 0) := by
  constructor
  · intro h
    exact ⟨if_pos h, if_pos h, ne_of_gt h⟩
  · intro h
    have h' : ¬ totalEntradas df > 0 := by rw [h]; exact lt_irrefl 0
    exact ⟨if_neg h', if_neg h'⟩

/-- Witness for C5: the positive-income branch at a ledger with a single
Entrada of 100, and the zero-income branch at a ledger with a single Saída. -/
theorem c5_savings_rate_witness :
    (taxaDePoupanca [txW1] = saldo [txW1] / totalEntradas [txW1] * 100
      ∧ taxaDePoupancaTxt [txW1] = saldo [txW1] / totalEntradas [txW1] * 100
      ∧ totalEntradas [txW1] ≠ 0)
    ∧ (taxaDePoupanca [txW2] = 0 ∧ taxaDePoupancaTxt [txW2] = 0) :=
  ⟨(c5_savings_rate [txW1]).1 (by simp [totalEntradas, txW1]),
   (c5_savings_rate [txW2]).2 (by simp [totalEntradas, txW2])⟩

/-- C7 counterexample: the claim says detection is equivalent to containing
a keyword of the spec's fixed English set, but the message "planilha"
triggers export intent in the code while containing none of the spec's
keywords. -/
theorem c7_counterexample :
    parseAiRequestForExport "planilha" = true
    ∧ specContainsExportKeyword "planilha" = false := by
  constructor <;> decide

/-- C7 amended: for every user message, `parse_ai_request_for_export`
returns true if and only if the lower-cased message contains at least one
keyword of the code's fixed set: planilha, excel, exportar, download,
baixar, orçamento, relatório, análise detalhada, spreadsheet. -/
theorem c7_keyword_detection_iff (msg : String) :
    parseAiRequestForExport msg = true
      ↔ ∃ kw ∈ exportKeywords, strContains (lowerStr msg) kw = true := by
  simp [parseAiRequestForExport, List.any_eq_true]

/-! ### Helper lemmas for the store model -/

theorem applyAll_cons (r : Req) (rs : List Req) (db : DB) :
    applyAll (r :: rs) db = applyAll rs (saveTransactionToDb db r) := rfl

theorem applyAll_rows_snd (reqs : List Req) :
    ∀ db : DB, (applyAll reqs db).rows.map Prod.snd
      = db.rows.map Prod.snd ++ reqs.map mkTx := by
  induction reqs with
  | nil => intro db; simp [applyAll]
  | cons r rs ih =>
    intro db
    rw [applyAll_cons, ih]
    simp [saveTransactionToDb]

theorem applyAll_ids (reqs : List Req) :
    ∀ db : DB,
      (∀ i ∈ db.rows.map Prod.fst, i < db.nextId) →
      ((db.rows.map Prod.fst).Nodup) →
      (∀ i ∈ (applyAll reqs db).rows.map Prod.fst, i < (applyAll reqs db).nextId)
      ∧ (((applyAll reqs db).rows.map Prod.fst).Nodup) := by
  induction reqs with
  | nil => intro db h1 h2; exact ⟨h1, h2⟩
  | cons r rs ih =>
    intro db h1 h2
    rw [applyAll_cons]
    apply ih
    · intro i hi
      rw [show (saveTransactionToDb db r).rows = db.rows ++ [(db.nextId, mkTx r)] from rfl,
        List.map_append] at hi
      rcases List.mem_append.mp hi with hi | hi
      · exact Nat.lt_succ_of_lt (h1 i hi)
      · simp at hi
        subst hi
        exact Nat.lt_succ_self _
    · rw [show (saveTransactionToDb db r).rows = db.rows ++ [(db.nextId, mkTx r)] from rfl,
        List.map_append, List.nodup_append]
      refine ⟨h2, List.nodup_singleton _, ?_⟩
      intro i hi hi'
      simp at hi'
      subst hi'
      exact absurd (h1 _ hi) (lt_irrefl _)

/-- C1: after any sequence of successful `save_transaction_to_db` calls on a
fresh store, `load_transactions_from_db` returns exactly the appended
transactions (a permutation of them), sorted by the `Data` timestamp
descending, with the stored surrogate ids unique and the multiset of
returned amounts equal to the multiset of amounts originally passed. -/
theorem c1_append_then_load (reqs : List Req) :
    (loadAll (applyAll reqs initDB)).Perm (reqs.map mkTx)
    ∧ List.Sorted leDesc (loadAll (applyAll reqs initDB))
    ∧ (((applyAll reqs initDB).rows.map Prod.fst).Nodup)
    ∧ ((loadAll (applyAll reqs initDB)).map Tx.valor).Perm (reqs.map Req.valor) := by
  have hrows : (applyAll reqs initDB).rows.map Prod.snd = reqs.map mkTx := by
    simpa [initDB] using applyAll_rows_snd reqs initDB
  have hperm : (loadAll (applyAll reqs initDB)).Perm (reqs.map mkTx) := by
    unfold loadAll loadTransactionsFromDb sortByDataDesc
    rw [hrows]
    exact List.perm_insertionSort _ _
  refine ⟨hperm, ?_, ?_, ?_⟩
  · exact List.sorted_insertionSort leDesc _
  · exact (applyAll_ids reqs initDB (by simp [initDB]) (by simp [initDB])).2
  · have h := hperm.map Tx.valor
    rw [List.map_map] at h
    have heq : (Tx.valor ∘ mkTx) = Req.valor := funext (fun r => rfl)
    rwa [heq] at h

/-- C2: `get_financial_summary` returns the "no data" sentinel (modelled
`none`) on an empty DataFrame; on a DataFrame holding exactly one Entrada
transaction of amount 100 and one Saída transaction of amount 40 it reports
totals 100 and 40, balance 60 and transaction count 2. -/
theorem c2_summary (t1 t2 : Tx) (df : List Tx) (hperm : df.Perm [t1, t2])
    (h1 : t1.tipo = "Entrada") (h2 : t1.valor = 100)
    (h3 : t2.tipo = "Saída") (h4 : t2.valor = 40) :
    getFinancialSummary [] = none
    ∧ ∃ s, getFinancialSummary df = some s
        ∧ s.totalEntradas = 100 ∧ s.totalSaidas = 40
        ∧ s.saldo = 60 ∧ s.transactionCount = 2 := by
  have hlen : df.length = 2 := by simpa using hperm.length_eq
  have hne : ¬ df.isEmpty := by
    cases df with
    | nil => simp at hlen
    | cons a l => simp
  have hE : totalEntradas df = 100 := by
    unfold totalEntradas
    rw [((hperm.filter (fun t => t.tipo == "Entrada")).map Tx.valor).sum_eq]
    simp [h1, h3, h2]
  have hS : totalSaidas df = 40 := by
    unfold totalSaidas
    rw [((hperm.filter (fun t => t.tipo == "Saída")).map Tx.valor).sum_eq]
    simp [h1, h3, h4]
  have hsum : getFinancialSummary df = some
      { totalEntradas := totalEntradas df, totalSaidas := totalSaidas df,
        saldo := saldo df, transactionCount := df.length,
        topGastosCategorias :=
          (List.insertionSort geSnd (gastosPorCategoria df)).take 3 } := by
    unfold getFinancialSummary
    rw [if_neg hne]
  refine ⟨rfl, ⟨_, hsum, hE, hS, ?_, hlen⟩⟩
  show totalEntradas df - totalSaidas df = 60
  rw [hE, hS]
  norm_num

/-- Witness for C2 at the concrete two-transaction ledger. -/
theorem c2_summary_witness :
    getFinancialSummary [] = none
    ∧ ∃ s, getFinancialSummary [txW1, txW2] = some s
        ∧ s.totalEntradas = 100 ∧ s.totalSaidas = 40
        ∧ s.saldo = 60 ∧ s.transactionCount = 2 :=
  c2_summary txW1 txW2 [txW1, txW2] (List.Perm.refl _) rfl rfl rfl rfl

/-- C9: when the store read raises, `load_transactions_from_db` returns the
empty DataFrame and `get_transaction_stats` returns the empty mapping
instead of propagating; on a successful read, each stats entry for a kind
carries that kind's row count, amount sum and amount mean (sum divided by
the non-zero count), and every kind present in the table has an entry. -/
theorem c9_read_failure_and_stats (e : String) (rows : List Tx) :
    loadTransactionsFromDb (Except.error e) = []
    ∧ getTransactionStats (Except.error e) = []
    ∧ (∀ tp c s m, (tp, c, s, m) ∈ getTransactionStats (Except.ok rows) →
        c = (rows.filter (fun t => t.tipo == tp)).length
        ∧ s = ((rows.filter (fun t => t.tipo == tp)).map Tx.valor).sum
        ∧ m = s / (c : ℚ)
        ∧ 0 < c)
    ∧ (∀ tp, tp ∈ rows.map Tx.tipo →
        ∃ c s m, (tp, c, s, m) ∈ getTransactionStats (Except.ok rows)) := by
  refine ⟨rfl, rfl, ?_, ?_⟩
  · intro tp c s m hm
    unfold getTransactionStats at hm
    simp only [List.mem_map] at hm
    obtain ⟨tp', htp', heq⟩ := hm
    simp only [Prod.mk.injEq] at heq
    obtain ⟨rfl, rfl, rfl, rfl⟩ := heq
    refine ⟨by simp, rfl, rfl, ?_⟩
    have htp'' := List.mem_dedup.mp htp'
    obtain ⟨t, ht, htt⟩ := List.mem_map.mp htp''
    rw [List.length_map]
    apply List.length_pos.mpr
    apply List.ne_nil_of_mem (a := t)
    exact List.mem_filter.mpr ⟨ht, by simp [htt]⟩
  · intro tp htp
    refine ⟨((rows.filter (fun t => t.tipo == tp)).map Tx.valor).length,
      ((rows.filter (fun t => t.tipo == tp)).map Tx.valor).sum,
      ((rows.filter (fun t => t.tipo == tp)).map Tx.valor).sum
        / ((((rows.filter (fun t => t.tipo == tp)).map Tx.valor).length : ℕ) : ℚ), ?_⟩
    unfold getTransactionStats
    exact List.mem_map_of_mem _ (List.mem_dedup.mpr htp)

/-- Witness for C9 at a failing read and at a successful read of a
single-Entrada table. -/
theorem c9_read_failure_and_stats_witness :
    ((1 : Nat) = ([txW1].filter (fun t => t.tipo == "Entrada")).length
      ∧ (100 : ℚ) = (([txW1].filter (fun t => t.tipo == "Entrada")).map Tx.valor).sum
      ∧ (100 : ℚ) = 100 / ((1 : Nat) : ℚ)
      ∧ 0 < (1 : Nat))
    ∧ (∃ c s m, ("Entrada", c, s, m) ∈ getTransactionStats (Except.ok [txW1])) :=
  ⟨(c9_read_failure_and_stats "boom" [txW1]).2.2.1 "Entrada" 1 100 100
      (by simp [getTransactionStats, txW1]),
   (c9_read_failure_and_stats "boom" [txW1]).2.2.2 "Entrada" (by simp [txW1])⟩

/-! ### Helper lemmas for the monthly breakdown -/

theorem parsedRows_cons (parseMes : String → Option String) (t : Tx) (rest : List Tx) :
    parsedRows parseMes (t :: rest)
      = match parseMes t.data with
        | some m => (m, t) :: parsedRows parseMes rest
        | none => parsedRows parseMes rest := by
  unfold parsedRows
  rw [List.filterMap_cons]
  cases parseMes t.data <;> simp

theorem resumoMensal_value (parseMes : String → Option String) (k : String × String) :
    ∀ df : List Tx,
      (((parsedRows parseMes df).filter (fun p => p.1 == k.1 && p.2.tipo == k.2)).map
          (fun p => p.2.valor)).sum
        = (df.map (fun t =>
            if parseMes t.data = some k.1 ∧ t.tipo = k.2 then t.valor else 0)).sum := by
  intro df
  induction df with
  | nil => rfl
  | cons t rest ih =>
    cases hp : parseMes t.data with
    | none =>
      simp only [parsedRows_cons, hp, List.map_cons, List.sum_cons]
      rw [ih, if_neg (show ¬ ((none : Option String) = some k.1 ∧ t.tipo = k.2) from
        fun h => Option.noConfusion h.1), zero_add]
    | some m =>
      by_cases hk : m = k.1 ∧ t.tipo = k.2
      · obtain ⟨rfl, htipo⟩ := hk
        simp only [parsedRows_cons, hp, List.map_cons, List.sum_cons]
        rw [List.filter_cons_of_pos]
        · simp only [List.map_cons, List.sum_cons, ih]
          simp [htipo]
        · simp [htipo]
      · have hcond : ¬ (parseMes t.data = some k.1 ∧ t.tipo = k.2) := by
          rintro ⟨h1, h2⟩
          rw [hp] at h1
          exact hk ⟨Option.some.inj h1, h2⟩
        simp only [parsedRows_cons, hp, List.map_cons, List.sum_cons]
        rw [List.filter_cons_of_neg]
        · rw [ih, if_neg (by rw [hp] at hcond; exact hcond), zero_add]
        · rcases not_and_or.mp hk with h | h <;> simp [h]

/-- C8: every entry of the monthly breakdown sheet maps its (month, kind)
key to the sum of the amounts of exactly the transactions whose timestamp
parses to that month and whose kind matches (a transaction with an
unparsable timestamp contributes to no entry), and every transaction —
parsable or not — still appears in the workbook's raw transactions sheet. -/
theorem c8_monthly_breakdown (parseMes : String → Option String) (df : List Tx) :
    (∀ k v, (k, v) ∈ resumoMensal parseMes df →
        v = (df.map (fun t =>
              if parseMes t.data = some k.1 ∧ t.tipo = k.2 then t.valor else 0)).sum)
    ∧ (∀ t ∈ df, t ∈ payloadTxRows (createBudgetSpreadsheet true parseMes df).1) := by
  constructor
  · intro k v hm
    unfold resumoMensal at hm
    simp only [List.mem_map] at hm
    obtain ⟨k', hk', heq⟩ := hm
    simp only [Prod.mk.injEq] at heq
    obtain ⟨rfl, rfl⟩ := heq
    exact resumoMensal_value parseMes k' df
  · intro t ht
    have hne : ¬ df.isEmpty := by
      cases df with
      | nil => cases ht
      | cons a l => simp
    unfold createBudgetSpreadsheet
    rw [if_neg hne, if_pos rfl]
    show t ∈ payloadTxRows (ExportPayload.workbook (budgetSheets parseMes df))
    unfold payloadTxRows budgetSheets
    simp only [List.map_cons, List.flatten_cons]
    apply List.mem_append_left
    show t ∈ sortByDataDesc df
    unfold sortByDataDesc
    exact (List.perm_insertionSort leDesc df).mem_iff.mpr ht

/-- `pd.to_datetime` stand-in used by the C8 witness: every timestamp
parses to month "2024-01". -/
def parseMesW : String → Option String := fun _ => some "2024-01"

/-- Witness for C8 at a one-row ledger whose single month entry sums to 100. -/
theorem c8_monthly_breakdown_witness :
    ((100 : ℚ) = ([txW1].map (fun t =>
        if parseMesW t.data = some "2024-01" ∧ t.tipo = "Entrada"
        then t.valor else 0)).sum)
    ∧ txW1 ∈ payloadTxRows (createBudgetSpreadsheet true parseMesW [txW1]).1 :=
  ⟨(c8_monthly_breakdown parseMesW [txW1]).1 ("2024-01", "Entrada") 100
      (by simp [resumoMensal, parsedRows, parseMesW, txW1]),
   (c8_monthly_breakdown parseMesW [txW1]).2 txW1 (by simp)⟩

/-! ### Helper lemmas for the export payloads -/

theorem topGastosRows_subset (df : List Tx) : ∀ t ∈ topGastosRows df, t ∈ df := by
  intro t ht
  unfold topGastosRows at ht
  have h1 := List.take_subset _ _ ht
  have h2 := (List.perm_insertionSort geValor _).subset h1
  exact List.filter_subset' _ h2

theorem budget_primary_rows_subset (parseMes : String → Option String) (df : List Tx) :
    ∀ t ∈ payloadTxRows (ExportPayload.workbook (budgetSheets parseMes df)), t ∈ df := by
  intro t ht
  unfold payloadTxRows budgetSheets sortByDataDesc at ht
  split_ifs at ht <;>
    simp only [List.map_cons, List.map_append, List.map_nil, List.flatten_cons,
      List.flatten_append, List.flatten_nil, List.mem_append, List.mem_cons,
      sheetTxRows, List.append_nil, List.nil_append, List.not_mem_nil, or_false,
      false_or] at ht <;>
    first
      | exact (List.perm_insertionSort leDesc df).subset ht
      | (rcases ht with ht | ht
         · exact (List.perm_insertionSort leDesc df).subset ht
         · exact topGastosRows_subset df t ht)

/-- C4: for every non-empty model, each transaction row that the primary
xlsx path of either export would include has a row with the same amount and
the same category in the corresponding library-unavailable fallback output
(the TXT budget report, resp. the CSV transaction dump) — the fallback is
information-equivalent, not truncated. -/
theorem c4_fallback_information_equivalent (parseMes : String → Option String)
    (df : List Tx) (h : df ≠ []) :
    (∀ t ∈ payloadTxRows (createBudgetSpreadsheet true parseMes df).1,
        ∃ u ∈ payloadTxRows (createBudgetSpreadsheet false parseMes df).1,
          u.valor = t.valor ∧ u.categoria = t.categoria)
    ∧ (∀ t ∈ payloadTxRows (createExcelExport true df).1,
        ∃ u ∈ payloadTxRows (createExcelExport false df).1,
          u.valor = t.valor ∧ u.categoria = t.categoria) := by
  have hne : ¬ df.isEmpty := by
    cases df with
    | nil => exact absurd rfl h
    | cons a l => simp
  constructor
  · intro t ht
    unfold createBudgetSpreadsheet at ht
    rw [if_neg hne, if_pos rfl] at ht
    have htdf : t ∈ df := budget_primary_rows_subset parseMes df t ht
    refine ⟨t, ?_, rfl, rfl⟩
    unfold createBudgetSpreadsheet
    rw [if_neg hne, if_neg Bool.false_ne_true]
    show t ∈ sortByDataDesc df
    exact (List.perm_insertionSort leDesc df).mem_iff.mpr htdf
  · intro t ht
    unfold createExcelExport at ht
    rw [if_neg hne, if_pos rfl] at ht
    have htdf : t ∈ df := by
      simpa [payloadTxRows, sheetTxRows] using ht
    refine ⟨t, ?_, rfl, rfl⟩
    unfold createExcelExport
    rw [if_neg hne, if_neg Bool.false_ne_true]
    show t ∈ df
    exact htdf

/-- `pd.to_datetime` stand-in used by the C4 witness: no timestamp parses. -/
def parseMesNone : String → Option String := fun _ => none

/-- Witness for C4: the single transaction of a one-row ledger, present in
the primary budget workbook, is found with equal amount and category in the
TXT fallback. -/
theorem c4_fallback_information_equivalent_witness :
    ∃ u ∈ payloadTxRows (createBudgetSpreadsheet false parseMesNone [txW1]).1,
      u.valor = txW1.valor ∧ u.categoria = txW1.categoria :=
  (c4_fallback_information_equivalent parseMesNone [txW1] (by simp)).1 txW1 (by decide)
